import Mathlib

/-!
Verification development for the Satellite repository (worker.py and main.py).

The worker (src/worker.py) runs a periodic cycle: it fetches the latest TLE
row per satellite from Postgres, computes each position with Skyfield,
batch-updates PostGIS geopoints, and publishes a snapshot to Redis under
CACHE_KEY with TTL CACHE_TTL_SECONDS.  The read API (src/main.py) serves
GET /api/v1/satellites cache-first from the same key, falling back to a
fresh SGP4 computation from the database.

The orbital propagators (Skyfield in worker.py, python-sgp4 in main.py) are
third-party numerical libraries; they are abstracted here as function
parameters from (line1, line2, time) to an optional position.  Everything
the repository itself does - control flow, which fields are emitted, which
failures are caught where, what is written to which sink, TTLs and the
scheduling loop - is embedded faithfully from the source.
-/

namespace Satellite

/-- Abstract instants; the embedding only needs an ordered clock. -/
abbrev Time := Nat

/-- Row produced by the worker query at worker.py:75-91: latest TLE per satellite. -/
structure SatRow where
  satellite_db_id : Nat
  name : String
  norad_cat_id : Nat
  line1 : String
  line2 : String
deriving Repr, DecidableEq

/-- Return value of calculate_satellite_position (worker.py:50-57):
an ECI vector in km and a geographic subpoint (lat, lon, alt). -/
structure PosData where
  eci_pos : Int × Int × Int
  geo_pos : Int × Int × Int
deriving Repr, DecidableEq

/-- Abstraction of the Skyfield propagation pipeline used at worker.py:40-47
(EarthSatellite construction, satellite.at(t), subpoint): a pure map from the
two TLE lines and the propagation instant to an optional position (none models
the except branch at worker.py:59-61). -/
def SkyfieldModel := String → String → Time → Option PosData

/-- Embedding of calculate_satellite_position (worker.py:32-61).  The Python
function takes only (line1, line2); the propagation instant is ts.now(), the
ambient wall clock read at line 40, so it appears here as the extra argument
wallClock rather than as a caller-supplied reference time. -/
def calculate_satellite_position (model : SkyfieldModel) (wallClock : Time)
    (line1 line2 : String) : Option PosData :=
  model line1 line2 wallClock

/-- One element of the satellites_data list built at worker.py:119-125. -/
structure CacheEntry where
  name : String
  norad_id : Nat
  latitude : Int
  longitude : Int
  altitude : Int
deriving Repr, DecidableEq

/-- The JSON object the worker serializes at worker.py:168:
json.dumps of a dict with the single key "satellites". -/
structure Snapshot where
  satellites : List CacheEntry
deriving Repr, DecidableEq

/-- Top-level JSON keys of the snapshot payload written at worker.py:168. -/
def snapshotKeys : List String := ["satellites"]

/-- JSON keys of each per-object entry, in dict order, from worker.py:119-125. -/
def entryKeys : List String :=
  ["name", "norad_id", "latitude", "longitude", "altitude"]

/-- Cache key used by both the worker (worker.py:18) and the API (main.py:11). -/
def CACHE_KEY : String := "satellite_positions_v2"

/-- TTL of the snapshot cache write, worker.py:19. -/
def CACHE_TTL_SECONDS : Nat := 60

/-- A Redis value together with its absolute expiry instant. -/
structure CacheVal where
  value : Snapshot
  expiresAt : Time
deriving Repr, DecidableEq

/-- Redis SET with EX ttl performed at time now. -/
def redisSet (now : Time) (ttl : Nat) (v : Snapshot) : Option CacheVal :=
  some { value := v, expiresAt := now + ttl }

/-- Redis GET at time t: a key expires once its TTL has fully elapsed. -/
def redisGet (c : Option CacheVal) (t : Time) : Option Snapshot :=
  match c with
  | none => none
  | some cv => if t < cv.expiresAt then some cv.value else none

/-- External outcomes one worker cycle depends on: the DB fetch result
(worker.py:73-91; error models a raised exception), the propagator model and
the wall clock, whether pool.acquire for the batch update (worker.py:143)
succeeds, whether conn.executemany (worker.py:145-152) succeeds, and whether
redis_client is non-None (worker.py:20-26). -/
structure CycleEnv where
  db : Except String (List SatRow)
  model : SkyfieldModel
  wallClock : Time
  pgAcquireOk : Bool
  pgExecOk : Bool
  redisAvail : Bool

/-- Position computed for one fetched row inside the cycle (worker.py:97-99,112). -/
def solveRow (env : CycleEnv) (s : SatRow) : Option PosData :=
  calculate_satellite_position env.model env.wallClock s.line1 s.line2

/-- The satellites_data element appended at worker.py:119-125. -/
def mkEntry (s : SatRow) (p : PosData) : CacheEntry :=
  { name := s.name
    norad_id := s.norad_cat_id
    latitude := p.geo_pos.1
    longitude := p.geo_pos.2.1
    altitude := p.geo_pos.2.2 }

/-- The executemany argument tuple (lon, lat, id) appended at worker.py:137-139. -/
def mkPgArgs (s : SatRow) (p : PosData) : Int × Int × Nat :=
  (p.geo_pos.2.1, p.geo_pos.1, s.satellite_db_id)

/-- Observable outcome of one call to fetch_and_calculate: the successes list,
the PostGIS batch arguments, whether the batch update was applied, what (if
anything) was written to CACHE_KEY this cycle, and the resulting state of
CACHE_KEY. -/
structure CycleOut where
  entries : List CacheEntry
  postgisArgs : List (Int × Int × Nat)
  postgisApplied : Bool
  cacheWrite : Option Snapshot
  cache : Option CacheVal
deriving Repr, DecidableEq

/-- The satellites_data list accumulated over the calculation loop
(worker.py:70,111-125): one entry per fetched row whose computation returned
a position; rows whose computation returned None are skipped. -/
def satellites_data (env : CycleEnv) (rows : List SatRow) : List CacheEntry :=
  rows.filterMap fun s => (solveRow env s).map (mkEntry s)

/-- The postgis_update_args list accumulated at worker.py:107,135-139. -/
def postgis_update_args (env : CycleEnv) (rows : List SatRow) : List (Int × Int × Nat) :=
  rows.filterMap fun s => (solveRow env s).map (mkPgArgs s)

/-- Body of the cycle after a successful DB fetch (worker.py:93-170).
An executemany failure is caught locally (worker.py:154-155) and the cycle
still reaches the cache write; a pool.acquire failure at worker.py:143 is
caught only by the outer handler, so the cache write is skipped.  The write
at worker.py:167-169 happens only when redis_client is non-None and
satellites_data is nonempty. -/
def cycleOnRows (env : CycleEnv) (cache0 : Option CacheVal) (rows : List SatRow) : CycleOut :=
  if !(postgis_update_args env rows).isEmpty && !env.pgAcquireOk then
    { entries := satellites_data env rows, postgisArgs := postgis_update_args env rows
      postgisApplied := false, cacheWrite := none, cache := cache0 }
  else if env.redisAvail && !(satellites_data env rows).isEmpty then
    { entries := satellites_data env rows, postgisArgs := postgis_update_args env rows
      postgisApplied := !(postgis_update_args env rows).isEmpty && env.pgExecOk
      cacheWrite := some { satellites := satellites_data env rows }
      cache := redisSet env.wallClock CACHE_TTL_SECONDS { satellites := satellites_data env rows } }
  else
    { entries := satellites_data env rows, postgisArgs := postgis_update_args env rows
      postgisApplied := !(postgis_update_args env rows).isEmpty && env.pgExecOk
      cacheWrite := none, cache := cache0 }

/-- Embedding of fetch_and_calculate (worker.py:64-174) acting on the prior
state cache0 of CACHE_KEY.  A DB fetch error propagates to the catch-all at
worker.py:172-174, which logs and returns, leaving every sink untouched. -/
def fetch_and_calculate (env : CycleEnv) (cache0 : Option CacheVal) : CycleOut :=
  match env.db with
  | .error _ =>
      { entries := [], postgisArgs := [], postgisApplied := false
        cacheWrite := none, cache := cache0 }
  | .ok rows => cycleOnRows env cache0 rows

/-- Delay slept between cycles, worker.py:196 (asyncio.sleep(CACHE_TTL_SECONDS)). -/
def sleepPeriod : Nat := CACHE_TTL_SECONDS

/-- Start instant of the k-th cycle of the worker loop (worker.py:193-196):
each iteration awaits the cycle, then sleeps sleepPeriod, so the next start is
the previous start plus that cycle's duration plus the sleep. -/
def cycleStart (durations : Nat → Nat) : Nat → Time
  | 0 => 0
  | k + 1 => cycleStart durations k + durations k + sleepPeriod

/-- State of CACHE_KEY after running the worker loop through a list of cycle
environments (one element per iteration of the loop at worker.py:193-196). -/
def runCycles (envs : List CycleEnv) (cache0 : Option CacheVal) : Option CacheVal :=
  envs.foldl (fun c e => (fetch_and_calculate e c).cache) cache0

/- ------------------------------------------------------------------ -/
/- Read API (src/main.py) -/

/-- Row of the fallback query at main.py:88-97. -/
structure ApiRow where
  name : String
  norad_cat_id : Nat
  line1 : String
  line2 : String
deriving Repr, DecidableEq

/-- Result of get_current_position (main.py:63): geographic position. -/
structure GeoPos where
  lat : Int
  lon : Int
  alt_km : Int
deriving Repr, DecidableEq

/-- Abstraction of the python-sgp4 propagation and the spherical conversion at
main.py:48-62 (Satrec.twoline2rv, sgp4, asin/atan2); none models both a
nonzero sgp4 error code and the except branch at main.py:64-66. -/
def SgpModel := String → String → Time → Option GeoPos

/-- Embedding of get_current_position (main.py:45-66); the propagation instant
is datetime.utcnow() read at line 49, passed here as the wall clock. -/
def get_current_position (sg : SgpModel) (wallClock : Time)
    (line1 line2 : String) : Option GeoPos :=
  sg line1 line2 wallClock

/-- One element of the samples list built at main.py:112-119. -/
structure Sample where
  t : Time
  lat : Int
  lon : Int
  alt_km : Int
deriving Repr, DecidableEq

/-- One element of the fallback satellites list built at main.py:106-120. -/
structure LiveEntry where
  name : String
  norad_id : Nat
  lat : Int
  lon : Int
  alt_km : Int
  samples : List Sample
deriving Repr, DecidableEq

/-- JSON keys of a fallback entry, in dict order, from main.py:106-120. -/
def liveEntryKeys : List String :=
  ["name", "norad_id", "lat", "lon", "alt_km", "samples"]

/-- Body of a response of get_satellite_positions: the cached snapshot served
verbatim (main.py:82), the freshly computed fallback object (main.py:122,128),
or the error object built at main.py:132. -/
inductive ApiBody where
  | snapshot (s : Snapshot)
  | live (sats : List LiveEntry)
  | apiError (msg : String)
deriving Repr, DecidableEq

/-- Top-level JSON keys of each response body: the cached payload has the
worker snapshot shape, the fallback is a dict with key "satellites"
(main.py:122), and the error object a dict with key "error" (main.py:132). -/
def apiBodyKeys : ApiBody → List String
  | .snapshot _ => snapshotKeys
  | .live _ => ["satellites"]
  | .apiError _ => ["error"]

/-- HTTP response of the endpoint.  FastAPI returns plain dicts with status
200 on every path of get_satellite_positions, including the except branch at
main.py:130-132. -/
structure ApiResponse where
  status : Nat
  body : ApiBody
deriving Repr, DecidableEq

/-- Key and TTL of the fallback result cached at main.py:12 and main.py:126. -/
def LIVE_CACHE_KEY : String := "live_satellite_positions"

/-- TTL of the fallback cache write, main.py:126 (ex=10). -/
def LIVE_TTL_SECONDS : Nat := 10

/-- A value stored under LIVE_CACHE_KEY with its expiry. -/
structure LiveCacheVal where
  satellites : List LiveEntry
  expiresAt : Time
deriving Repr, DecidableEq

/-- External outcomes one request depends on: whether redis_client is
non-None (main.py:35-41), the state of CACHE_KEY, the wall clock, the
fallback DB query result (main.py:86-100; error models a raised exception),
and the propagator model. -/
structure ApiEnv where
  redisAvail : Bool
  cache : Option CacheVal
  now : Time
  db : Except String (List ApiRow)
  sg : SgpModel

/-- Observable outcome of one request: the HTTP response and what (if
anything) was written under LIVE_CACHE_KEY. -/
structure ApiOut where
  response : ApiResponse
  liveWrite : Option LiveCacheVal
deriving Repr, DecidableEq

/-- Embedding of get_satellite_positions (main.py:70-132).  Cache-first: on a
Redis hit the cached JSON is returned verbatim (main.py:78-82).  Otherwise the
latest TLEs are fetched and positions computed; objects whose computation
returns None are skipped (main.py:103-120).  Any exception is caught at
main.py:130-132 and turned into a dict with key "error", still served with
status 200. -/
def get_satellite_positions (env : ApiEnv) : ApiOut :=
  match (if env.redisAvail then redisGet env.cache env.now else none) with
  | some s =>
      { response := { status := 200, body := .snapshot s }, liveWrite := none }
  | none =>
      match env.db with
      | .error e =>
          { response := { status := 200, body := .apiError e }, liveWrite := none }
      | .ok rows =>
          let satellites := rows.filterMap fun r =>
            (get_current_position env.sg env.now r.line1 r.line2).map fun p =>
              ({ name := r.name, norad_id := r.norad_cat_id
                 lat := p.lat, lon := p.lon, alt_km := p.alt_km
                 samples := [{ t := env.now, lat := p.lat, lon := p.lon, alt_km := p.alt_km }] } : LiveEntry)
          { response := { status := 200, body := .live satellites }
            liveWrite := if env.redisAvail then
                some { satellites := satellites, expiresAt := env.now + LIVE_TTL_SECONDS }
              else none }

/- ------------------------------------------------------------------ -/
/- Concrete fixtures for witnesses and counterexamples -/

/-- A concrete fetched row. -/
def sampleRow : SatRow :=
  { satellite_db_id := 1, name := "SAT-1", norad_cat_id := 25544
    line1 := "L1", line2 := "L2" }

/-- A concrete position for the row. -/
def samplePos : PosData :=
  { eci_pos := (6524, 1327, 2505), geo_pos := (51, -114, 417) }

/-- A propagator that always succeeds with samplePos. -/
def okModel : SkyfieldModel := fun _ _ _ => some samplePos

/-- A propagator that always fails (models a bad TLE raising in Skyfield). -/
def noneModel : SkyfieldModel := fun _ _ _ => none

/-- A cycle in which everything works and one satellite is fetched. -/
def envOk : CycleEnv :=
  { db := .ok [sampleRow], model := okModel, wallClock := 0
    pgAcquireOk := true, pgExecOk := true, redisAvail := true }

/-- A cycle whose single candidate fails to compute. -/
def envAllFail : CycleEnv :=
  { db := .ok [sampleRow], model := noneModel, wallClock := 0
    pgAcquireOk := true, pgExecOk := true, redisAvail := true }

/-- A cycle with an empty candidate list. -/
def envNoRows : CycleEnv :=
  { db := .ok [], model := noneModel, wallClock := 0
    pgAcquireOk := true, pgExecOk := true, redisAvail := true }

/-- A cycle whose element-store query raises. -/
def envDbFail : CycleEnv :=
  { db := .error "connection refused", model := okModel, wallClock := 0
    pgAcquireOk := true, pgExecOk := true, redisAvail := true }

/- ------------------------------------------------------------------ -/
/- Helper lemmas -/

/-- Splitting a list by whether g returns a value accounts for every element. -/
theorem length_filterMap_add_length_filter {α β : Type} (l : List α) (g : α → Option β) :
    (l.filterMap g).length + (l.filter fun a => (g a).isNone).length = l.length := by
  induction l with
  | nil => simp
  | cons a l ih =>
    cases h : g a <;> simp [List.filterMap_cons, List.filter_cons, h] <;> omega

/-- Behaviour of the cycle when the element-store query raises. -/
theorem fac_db_error (env : CycleEnv) (c : Option CacheVal) (e : String)
    (h : env.db = .error e) :
    fetch_and_calculate env c =
      { entries := [], postgisArgs := [], postgisApplied := false
        cacheWrite := none, cache := c } := by
  unfold fetch_and_calculate
  rw [h]

/-- Behaviour of the cycle when the element-store query succeeds. -/
theorem fac_db_ok (env : CycleEnv) (c : Option CacheVal) (rows : List SatRow)
    (h : env.db = .ok rows) :
    fetch_and_calculate env c = cycleOnRows env c rows := by
  unfold fetch_and_calculate
  rw [h]

/-- The successes list of the cycle body is always satellites_data. -/
theorem cycleOnRows_entries (env : CycleEnv) (c : Option CacheVal) (rows : List SatRow) :
    (cycleOnRows env c rows).entries = satellites_data env rows := by
  unfold cycleOnRows
  split_ifs <;> rfl

/-- The PostGIS argument list of the cycle body is always postgis_update_args. -/
theorem cycleOnRows_postgisArgs (env : CycleEnv) (c : Option CacheVal) (rows : List SatRow) :
    (cycleOnRows env c rows).postgisArgs = postgis_update_args env rows := by
  unfold cycleOnRows
  split_ifs <;> rfl

/-- The successes list of a cycle does not depend on the prior cache state. -/
theorem entries_indep_cache (env : CycleEnv) (c c' : Option CacheVal) :
    (fetch_and_calculate env c).entries = (fetch_and_calculate env c').entries := by
  cases h : env.db with
  | error e => rw [fac_db_error env c e h, fac_db_error env c' e h]
  | ok rows =>
    rw [fac_db_ok env c rows h, fac_db_ok env c' rows h,
      cycleOnRows_entries, cycleOnRows_entries]

/-- Whenever the cycle body writes the cache, the stored value is exactly the
written snapshot, stored with TTL CACHE_TTL_SECONDS, its satellites list is
the successes list of the cycle, and that list is nonempty. -/
theorem cycleOnRows_cacheWrite_spec (env : CycleEnv) (c : Option CacheVal)
    (rows : List SatRow) (s : Snapshot)
    (h : (cycleOnRows env c rows).cacheWrite = some s) :
    (cycleOnRows env c rows).cache = redisSet env.wallClock CACHE_TTL_SECONDS s ∧
      s.satellites = satellites_data env rows ∧ s.satellites ≠ [] := by
  unfold cycleOnRows at *
  split_ifs at h ⊢ with h1 h2
  · obtain ⟨hr, hne⟩ := Bool.and_eq_true_iff.mp h2
    simp only [Option.some.injEq] at h
    subst h
    refine ⟨rfl, rfl, ?_⟩
    simpa using hne

/-- Whenever a cycle writes the cache, the stored value is exactly the written
snapshot with TTL CACHE_TTL_SECONDS, and its satellites list is the nonempty
successes list of the cycle. -/
theorem cacheWrite_spec (env : CycleEnv) (c : Option CacheVal) (s : Snapshot)
    (h : (fetch_and_calculate env c).cacheWrite = some s) :
    (fetch_and_calculate env c).cache = redisSet env.wallClock CACHE_TTL_SECONDS s ∧
      s.satellites = (fetch_and_calculate env c).entries ∧ s.satellites ≠ [] := by
  cases hdb : env.db with
  | error e =>
    rw [fac_db_error env c e hdb] at h
    simp at h
  | ok rows =>
    rw [fac_db_ok env c rows hdb] at h ⊢
    rw [cycleOnRows_entries]
    exact cycleOnRows_cacheWrite_spec env c rows s h

/- ------------------------------------------------------------------ -/
/- Claim C1 -/

/-- The snapshot of a fully successful one-satellite cycle, as the worker
actually serializes it. -/
def snapOk : Snapshot :=
  { satellites := [{ name := "SAT-1", norad_id := 25544
                     latitude := 51, longitude := -114, altitude := 417 }] }

/-- An SGP4 model that always fails; the fallback path is unused on a hit. -/
def sgNone : SgpModel := fun _ _ _ => none

/-- A request environment that hits the cache: Redis is up and CACHE_KEY
holds snapOk, not yet expired. -/
def apiEnvHit : ApiEnv :=
  { redisAvail := true, cache := some { value := snapOk, expiresAt := 60 }
    now := 0, db := .ok [], sg := sgNone }

/-- C1, counterexample.  A cycle with one successful result does write the
cache, but the stored payload is a JSON object whose only top-level key is
"satellites" - there is no generatedAt timestamp - and whose per-object
entries carry name, norad_id, latitude, longitude, altitude, with no
catalogId, no ECI vector and no trajectory field. -/
theorem C1_counterexample :
    (fetch_and_calculate envOk none).cacheWrite = some snapOk
    ∧ "generatedAt" ∉ snapshotKeys
    ∧ "trajectory" ∉ entryKeys
    ∧ "eci" ∉ entryKeys
    ∧ "catalogId" ∉ entryKeys := by
  exact ⟨rfl, by decide, by decide, by decide, by decide⟩

/-- C1, amended.  Every payload the worker writes to the cache is exactly the
snapshot object with the single top-level key "satellites", its list being the
successes of that cycle, stored under CACHE_KEY with TTL CACHE_TTL_SECONDS;
and on a cache hit the read API returns the stored snapshot verbatim (plus
nothing), with status 200. -/
theorem C1_snapshot_shape_and_verbatim_hit (env : CycleEnv) (c : Option CacheVal)
    (s : Snapshot) (aenv : ApiEnv)
    (hw : (fetch_and_calculate env c).cacheWrite = some s)
    (ha : aenv.redisAvail = true)
    (hhit : redisGet aenv.cache aenv.now = some s) :
    (fetch_and_calculate env c).cache = redisSet env.wallClock CACHE_TTL_SECONDS s
    ∧ s.satellites = (fetch_and_calculate env c).entries
    ∧ apiBodyKeys (.snapshot s) = snapshotKeys
    ∧ (get_satellite_positions aenv).response = { status := 200, body := .snapshot s } := by
  obtain ⟨h1, h2, _⟩ := cacheWrite_spec env c s hw
  refine ⟨h1, h2, rfl, ?_⟩
  unfold get_satellite_positions
  rw [ha]
  simp only [if_true, hhit]

/-- C1, witness: the amended statement at the concrete one-satellite cycle and
a concrete cache-hit request. -/
theorem C1_witness :
    (fetch_and_calculate envOk none).cache = redisSet envOk.wallClock CACHE_TTL_SECONDS snapOk
    ∧ snapOk.satellites = (fetch_and_calculate envOk none).entries
    ∧ apiBodyKeys (.snapshot snapOk) = snapshotKeys
    ∧ (get_satellite_positions apiEnvHit).response = { status := 200, body := .snapshot snapOk } :=
  C1_snapshot_shape_and_verbatim_hit envOk none snapOk apiEnvHit rfl rfl rfl

/- ------------------------------------------------------------------ -/
/- Claim C2 -/

/-- C2, counterexample.  A candidate that succeeds yields exactly the
five-field current-position entry; the produced result has no trajectory (and
no samples) field at all, hence no ordered sequence of future samples over
any horizon. -/
theorem C2_counterexample :
    (fetch_and_calculate envOk none).entries = snapOk.satellites
    ∧ "trajectory" ∉ entryKeys
    ∧ "samples" ∉ entryKeys
    ∧ entryKeys = ["name", "norad_id", "latitude", "longitude", "altitude"] := by
  exact ⟨rfl, by decide, by decide, rfl⟩

/-- C2, amended.  For every candidate that succeeds in a cycle, the produced
result is the single current-position entry mkEntry (name, norad id, lat,
lon, alt) and nothing more: no trajectory field exists, and the successes are
computed fresh from this cycle alone (independent of any prior cache
state). -/
theorem C2_current_position_only (env : CycleEnv) (c c' : Option CacheVal)
    (rows : List SatRow) (s : SatRow) (p : PosData)
    (hdb : env.db = .ok rows) (hs : s ∈ rows) (hp : solveRow env s = some p) :
    mkEntry s p ∈ (fetch_and_calculate env c).entries
    ∧ (fetch_and_calculate env c).entries = (fetch_and_calculate env c').entries
    ∧ "trajectory" ∉ entryKeys := by
  refine ⟨?_, entries_indep_cache env c c', by decide⟩
  rw [fac_db_ok env c rows hdb, cycleOnRows_entries]
  unfold satellites_data
  exact List.mem_filterMap.mpr ⟨s, hs, by rw [hp]; rfl⟩

/-- C2, witness: the amended statement at the concrete one-satellite cycle. -/
theorem C2_witness :
    mkEntry sampleRow samplePos ∈ (fetch_and_calculate envOk none).entries
    ∧ (fetch_and_calculate envOk none).entries = (fetch_and_calculate envOk (some { value := snapOk, expiresAt := 60 })).entries
    ∧ "trajectory" ∉ entryKeys :=
  C2_current_position_only envOk none (some { value := snapOk, expiresAt := 60 })
    [sampleRow] sampleRow samplePos rfl (by decide) rfl

/- ------------------------------------------------------------------ -/
/- Claim C3 -/

/-- A propagator whose output moves with the propagation instant, as any
genuine orbital propagator does (the satellite advances along its orbit). -/
def driftModel : SkyfieldModel :=
  fun _ _ t => some { eci_pos := ((t : Int), 0, 0), geo_pos := (0, 0, 0) }

/-- C3, counterexample.  calculate_satellite_position takes no reference-time
argument; it propagates at the ambient wall clock (ts.now() at worker.py:40).
Under a time-varying propagator, two invocations with identical TLE inputs
but different ambient clocks disagree, so the output does depend on the wall
clock read inside the computation. -/
theorem C3_counterexample :
    calculate_satellite_position driftModel 0 "L1" "L2" ≠
      calculate_satellite_position driftModel 1 "L1" "L2" := by
  decide

/-- C3, amended.  The computation is deterministic given the clock: it has no
hidden state besides the ambient wall-clock instant, and its dependence on
that instant factors entirely through the propagator.  Whenever the
propagator agrees on the two instants, the two invocations with identical
TLE inputs agree. -/
theorem C3_deterministic_given_clock (m : SkyfieldModel) (t1 t2 : Time)
    (l1 l2 : String) (h : m l1 l2 t1 = m l1 l2 t2) :
    calculate_satellite_position m t1 l1 l2 =
      calculate_satellite_position m t2 l1 l2 := h

/-- C3, witness: the amended statement at a concrete clock-insensitive
propagator and concrete TLE lines. -/
theorem C3_witness :
    calculate_satellite_position okModel 0 "L1" "L2" =
      calculate_satellite_position okModel 1 "L1" "L2" :=
  C3_deterministic_given_clock okModel 0 1 "L1" "L2" rfl

/- ------------------------------------------------------------------ -/
/- Claim C4 -/

/-- C4, counterexample.  A cycle with N = 1 candidate whose computation fails
produces an output identical to a cycle with N = 0 candidates: no success
entry and no (objectId, error) record of any kind.  Hence the candidate count
N is not recoverable from the cycle output, and no notion of recorded
successes plus recorded failures can equal N for both runs. -/
theorem C4_counterexample :
    fetch_and_calculate envAllFail none = fetch_and_calculate envNoRows none
    ∧ (fetch_and_calculate envAllFail none).entries.length = 0 := by
  exact ⟨rfl, rfl⟩

/-- C4, amended.  For every N ≥ 0 candidates, one cycle completes (the
embedding is total: every exception is caught at the cycle boundary,
worker.py:172-174) and yields successes for exactly those candidates whose
computation returned a position; candidates whose computation failed are
silently dropped with no error record, so successes plus silently-dropped
failures equals N. -/
theorem C4_success_count (env : CycleEnv) (c : Option CacheVal) (rows : List SatRow)
    (hdb : env.db = .ok rows) :
    (fetch_and_calculate env c).entries.length
      + (rows.filter fun s => (solveRow env s).isNone).length = rows.length := by
  rw [fac_db_ok env c rows hdb, cycleOnRows_entries]
  unfold satellites_data
  have hpred : (rows.filter fun s => ((solveRow env s).map (mkEntry s)).isNone)
      = rows.filter fun s => (solveRow env s).isNone := by
    apply List.filter_congr
    intro s _
    cases solveRow env s <;> rfl
  rw [← hpred]
  exact length_filterMap_add_length_filter rows _

/-- C4, witness: the amended statement at the concrete cycle whose single
candidate fails. -/
theorem C4_witness :
    (fetch_and_calculate envAllFail none).entries.length
      + (([sampleRow]).filter fun s => (solveRow envAllFail s).isNone).length
      = ([sampleRow] : List SatRow).length :=
  C4_success_count envAllFail none [sampleRow] rfl

/- ------------------------------------------------------------------ -/
/- Claim C5 -/

/-- A request environment in which Redis is unavailable and the fallback DB
query raises. -/
def apiEnvDown : ApiEnv :=
  { redisAvail := false, cache := none, now := 0
    db := .error "connection refused", sg := sgNone }

/-- C5, counterexample.  When the cache path yields nothing and the degraded
recomputation fails, the endpoint returns HTTP 200 (FastAPI default for a
returned dict) with body key "error" (main.py:130-132) - not HTTP 503, and
not a body with keys status and reason. -/
theorem C5_counterexample :
    (get_satellite_positions apiEnvDown).response
      = { status := 200, body := .apiError "connection refused" }
    ∧ (get_satellite_positions apiEnvDown).response.status ≠ 503
    ∧ "status" ∉ apiBodyKeys (get_satellite_positions apiEnvDown).response.body := by
  exact ⟨rfl, by decide, by decide⟩

/-- C5, amended.  For every request in which the cache step yields nothing
(Redis unavailable, key absent or expired) and the fallback DB query raises,
the endpoint returns status 200 with the explicit error object whose single
key is "error" carrying the reason, and writes nothing to the live cache; it
does not fabricate position data. -/
theorem C5_error_response (env : ApiEnv) (e : String)
    (hmiss : (if env.redisAvail then redisGet env.cache env.now else none) = none)
    (hdb : env.db = .error e) :
    (get_satellite_positions env).response = { status := 200, body := .apiError e }
    ∧ apiBodyKeys (get_satellite_positions env).response.body = ["error"]
    ∧ (get_satellite_positions env).liveWrite = none := by
  unfold get_satellite_positions
  rw [hmiss, hdb]
  exact ⟨rfl, rfl, rfl⟩

/-- C5, witness: the amended statement at the concrete request with Redis
down and a failing DB. -/
theorem C5_witness :
    (get_satellite_positions apiEnvDown).response
      = { status := 200, body := .apiError "connection refused" }
    ∧ apiBodyKeys (get_satellite_positions apiEnvDown).response.body = ["error"]
    ∧ (get_satellite_positions apiEnvDown).liveWrite = none :=
  C5_error_response apiEnvDown "connection refused" rfl rfl

/- ------------------------------------------------------------------ -/
/- Claim C6 -/

/-- C6, confirmed.  When the element-store query fails, the whole cycle
aborts atomically: no candidate is processed (no success entries, no PostGIS
arguments, no batch applied), nothing is written to the cache and the
previously published value under CACHE_KEY is left exactly as it was
(including its expiry); and the loop carries on, the next cycle running from
that unchanged state. -/
theorem C6_store_failure_aborts_cycle (env : CycleEnv) (c : Option CacheVal)
    (e : String) (rest : List CycleEnv) (hdb : env.db = .error e) :
    (fetch_and_calculate env c).entries = []
    ∧ (fetch_and_calculate env c).postgisArgs = []
    ∧ (fetch_and_calculate env c).postgisApplied = false
    ∧ (fetch_and_calculate env c).cacheWrite = none
    ∧ (fetch_and_calculate env c).cache = c
    ∧ runCycles (env :: rest) c = runCycles rest c := by
  have h := fac_db_error env c e hdb
  refine ⟨by rw [h], by rw [h], by rw [h], by rw [h], by rw [h], ?_⟩
  unfold runCycles
  simp only [List.foldl_cons]
  rw [h]

/-- C6, witness: the statement at the concrete failing-store cycle, with the
previous snapshot present in the cache. -/
theorem C6_witness :
    (fetch_and_calculate envDbFail (some { value := snapOk, expiresAt := 60 })).entries = []
    ∧ (fetch_and_calculate envDbFail (some { value := snapOk, expiresAt := 60 })).postgisArgs = []
    ∧ (fetch_and_calculate envDbFail (some { value := snapOk, expiresAt := 60 })).postgisApplied = false
    ∧ (fetch_and_calculate envDbFail (some { value := snapOk, expiresAt := 60 })).cacheWrite = none
    ∧ (fetch_and_calculate envDbFail (some { value := snapOk, expiresAt := 60 })).cache
        = some { value := snapOk, expiresAt := 60 }
    ∧ runCycles [envDbFail] (some { value := snapOk, expiresAt := 60 })
        = runCycles [] (some { value := snapOk, expiresAt := 60 }) :=
  C6_store_failure_aborts_cycle envDbFail (some { value := snapOk, expiresAt := 60 })
    "connection refused" [] rfl

/- ------------------------------------------------------------------ -/
/- Claim C7 -/

/-- A cycle in which everything works except the PostGIS executemany. -/
def envPgFail : CycleEnv :=
  { db := .ok [sampleRow], model := okModel, wallClock := 0
    pgAcquireOk := true, pgExecOk := false, redisAvail := true }

/-- C7, confirmed.  In a cycle with at least one success, a failure of the
batched geospatial upsert (conn.executemany raising, caught and logged at
worker.py:154-155) does not prevent the cache publish: the snapshot of this
cycle is still written under CACHE_KEY with its usual TTL, while the batch
is recorded as not applied. -/
theorem C7_pg_failure_still_publishes (env : CycleEnv) (c : Option CacheVal)
    (rows : List SatRow) (hdb : env.db = .ok rows)
    (hacq : env.pgAcquireOk = true) (hexec : env.pgExecOk = false)
    (hred : env.redisAvail = true)
    (hne : satellites_data env rows ≠ []) :
    (fetch_and_calculate env c).cacheWrite = some { satellites := satellites_data env rows }
    ∧ (fetch_and_calculate env c).cache
        = redisSet env.wallClock CACHE_TTL_SECONDS { satellites := satellites_data env rows }
    ∧ (fetch_and_calculate env c).postgisApplied = false := by
  have hne' : (satellites_data env rows).isEmpty = false := by
    cases hE : (satellites_data env rows).isEmpty
    · rfl
    · exact absurd (by simpa using hE) hne
  rw [fac_db_ok env c rows hdb]
  unfold cycleOnRows
  simp only [hacq, hexec, hred, hne', Bool.not_true, Bool.and_false, Bool.not_false,
    Bool.true_and, if_false, if_true]
  exact ⟨rfl, rfl, rfl⟩

/-- C7, witness: the statement at the concrete cycle whose executemany
fails. -/
theorem C7_witness :
    (fetch_and_calculate envPgFail none).cacheWrite
      = some { satellites := satellites_data envPgFail [sampleRow] }
    ∧ (fetch_and_calculate envPgFail none).cache
        = redisSet envPgFail.wallClock CACHE_TTL_SECONDS
            { satellites := satellites_data envPgFail [sampleRow] }
    ∧ (fetch_and_calculate envPgFail none).postgisApplied = false :=
  C7_pg_failure_still_publishes envPgFail none [sampleRow] rfl rfl rfl rfl (by decide)

/- ------------------------------------------------------------------ -/
/- Claim C8 -/

/-- C8, counterexample.  The cache TTL is CACHE_TTL_SECONDS = 60, and the
sleep between cycles is the same 60 seconds (worker.py:19,196), so the TTL
equals the period exactly: there is no margin and the TTL does not strictly
exceed T.  A concrete successful cycle publishing at time 0 stores an entry
expiring exactly at 60. -/
theorem C8_counterexample :
    CACHE_TTL_SECONDS = 60 ∧ sleepPeriod = 60
    ∧ ¬ sleepPeriod < CACHE_TTL_SECONDS
    ∧ (fetch_and_calculate envOk none).cache = some { value := snapOk, expiresAt := 60 } := by
  exact ⟨rfl, rfl, by decide, rfl⟩

/-- C8, amended.  Every cache write uses TTL = CACHE_TTL_SECONDS, which
equals the inter-cycle sleep exactly (margin zero); consequently if no cycle
publishes within one period of the last publish, a subsequent cache read
misses rather than observing the old value. -/
theorem C8_ttl_equals_period (env : CycleEnv) (c : Option CacheVal) (s : Snapshot)
    (hw : (fetch_and_calculate env c).cacheWrite = some s) :
    (fetch_and_calculate env c).cache
      = some { value := s, expiresAt := env.wallClock + CACHE_TTL_SECONDS }
    ∧ CACHE_TTL_SECONDS = sleepPeriod
    ∧ ∀ t : Time, env.wallClock + sleepPeriod ≤ t →
        redisGet (fetch_and_calculate env c).cache t = none := by
  obtain ⟨h1, _, _⟩ := cacheWrite_spec env c s hw
  refine ⟨h1, rfl, ?_⟩
  intro t ht
  have ht' : env.wallClock + CACHE_TTL_SECONDS ≤ t := by
    simpa [sleepPeriod] using ht
  have hnlt : ¬ t < env.wallClock + CACHE_TTL_SECONDS := Nat.not_lt.mpr ht'
  rw [h1]
  show (if t < env.wallClock + CACHE_TTL_SECONDS then some s else none) = none
  rw [if_neg hnlt]

/-- C8, witness: at the concrete publishing cycle (write at time 0), a read
at time 60 = one period later already misses. -/
theorem C8_witness :
    redisGet (fetch_and_calculate envOk none).cache 60 = none :=
  (C8_ttl_equals_period envOk none snapOk rfl).2.2 60 (by decide)

/- ------------------------------------------------------------------ -/
/- Claim C9 -/

/-- C9, counterexample.  With every cycle taking 30 seconds (well under the
period), consecutive starts are 90 seconds apart, not sleepPeriod = 60: the
loop sleeps a full period after each cycle returns (fixed delay), so the
period is not the spacing between cycle starts. -/
theorem C9_counterexample :
    cycleStart (fun _ => 30) 1 = 90
    ∧ cycleStart (fun _ => 30) 1 - cycleStart (fun _ => 30) 0 ≠ sleepPeriod := by
  exact ⟨rfl, by decide⟩

/-- C9, amended.  The loop is fixed-delay, not fixed-rate: the next cycle
starts exactly one full sleepPeriod after the previous cycle returns, so
consecutive starts are duration plus sleepPeriod apart; cycles never overlap
(the next start is never before the previous end), and whenever a cycle has
positive duration the spacing between starts strictly exceeds the period. -/
theorem C9_fixed_delay_no_overlap (d : Nat → Nat) (k : Nat) :
    cycleStart d (k + 1) = cycleStart d k + d k + sleepPeriod
    ∧ cycleStart d k + d k ≤ cycleStart d (k + 1)
    ∧ (0 < d k → sleepPeriod < cycleStart d (k + 1) - cycleStart d k) := by
  refine ⟨rfl, Nat.le_add_right _ _, fun h => ?_⟩
  have he : cycleStart d (k + 1) = cycleStart d k + d k + sleepPeriod := rfl
  rw [he]
  omega

/-- C9, witness: the strict-overrun part at a concrete 30-second cycle. -/
theorem C9_witness :
    sleepPeriod < cycleStart (fun _ => 30) 1 - cycleStart (fun _ => 30) 0 :=
  (C9_fixed_delay_no_overlap (fun _ => 30) 0).2.2 (by decide)

/- ------------------------------------------------------------------ -/
/- Claim C10 -/

/-- C10, confirmed.  A cycle in which every candidate computation fails (in
particular one with an empty candidate list) performs no cache write at all:
nothing is published, and whatever was stored under CACHE_KEY before the
cycle is left exactly as it was, expiry included, so it keeps aging toward
its original TTL expiry. -/
theorem C10_no_publish_on_empty (env : CycleEnv) (c : Option CacheVal)
    (rows : List SatRow) (hdb : env.db = .ok rows)
    (hall : ∀ s ∈ rows, solveRow env s = none) :
    (fetch_and_calculate env c).cacheWrite = none
    ∧ (fetch_and_calculate env c).cache = c
    ∧ (fetch_and_calculate env c).entries = [] := by
  have hdata : satellites_data env rows = [] := by
    unfold satellites_data
    refine List.filterMap_eq_nil_iff.mpr fun s hs => ?_
    rw [hall s hs]; rfl
  have hargs : postgis_update_args env rows = [] := by
    unfold postgis_update_args
    refine List.filterMap_eq_nil_iff.mpr fun s hs => ?_
    rw [hall s hs]; rfl
  rw [fac_db_ok env c rows hdb]
  unfold cycleOnRows
  rw [hdata, hargs]
  simp

/-- C10, witness: the statement at the concrete cycle whose single candidate
fails, with a previous snapshot present in the cache. -/
theorem C10_witness :
    (fetch_and_calculate envAllFail (some { value := snapOk, expiresAt := 60 })).cacheWrite = none
    ∧ (fetch_and_calculate envAllFail (some { value := snapOk, expiresAt := 60 })).cache
        = some { value := snapOk, expiresAt := 60 }
    ∧ (fetch_and_calculate envAllFail (some { value := snapOk, expiresAt := 60 })).entries = [] :=
  C10_no_publish_on_empty envAllFail (some { value := snapOk, expiresAt := 60 })
    [sampleRow] rfl (by decide)

end Satellite
